import Mathlib

/-!
Shallow embedding of the SIM800 AT-command engine
(`src/sim800/commands.py`, `src/sim800/modules.py`) and proofs of the
specification claims about it.

Python exceptions are modelled with `Except PyExc`; Python `int()` is
modelled by `pyInt`; Python string operations are modelled structurally
over the character list (`pySplit`, `pyDrop`, ...) so that concrete runs
reduce inside the kernel; the dictionary `SIM800.COMMANDS` (populated by
`__init__.py` from every concrete `ATCommand` subclass, keyed by class
name) is modelled by `lookupCmd`.
-/

/-- Python exception kinds raised by the modelled code paths. -/
inductive PyExc
  | valueError
  | indexError
  | keyError
  | osError
deriving DecidableEq, Repr

deriving instance DecidableEq for Except

/-- Boolean test that the first character list leads the second. -/
def chPre : List Char → List Char → Bool
  | [], _ => true
  | _ :: _, [] => false
  | a :: as, b :: bs => a = b && chPre as bs

/-- Python `s.startswith(p)`. -/
def pyStartsWith (s p : String) : Bool := chPre p.data s.data

/-- Python `s.endswith(p)`. -/
def pyEndsWith (s p : String) : Bool := chPre p.data.reverse s.data.reverse

/-- Python slicing `s[n:]` (by code points, total). -/
def pyDrop (s : String) (n : Nat) : String := ⟨s.data.drop n⟩

/-- Python slicing `s[:n]` (by code points, total). -/
def pyTake (s : String) (n : Nat) : String := ⟨s.data.take n⟩

/-- Python slicing `s[:-n]` (drop the last `n` code points, total). -/
def pyDropRight (s : String) (n : Nat) : String := ⟨(s.data.reverse.drop n).reverse⟩

/-- Helper for `pySplit`: accumulate the current field (reversed). -/
def splitChAux (sep : Char) : List Char → List Char → List (List Char)
  | [], acc => [acc.reverse]
  | c :: rest, acc =>
    if c = sep then acc.reverse :: splitChAux sep rest []
    else splitChAux sep rest (c :: acc)

/-- Python `s.split(sep)` for a one-character separator
(`''.split(sep) == ['']`, and the result is always nonempty). -/
def pySplit (s : String) (sep : Char) : List String :=
  (splitChAux sep s.data []).map (fun l => ⟨l⟩)

/-- Python `s.strip()`. -/
def pyTrim (s : String) : String :=
  ⟨((s.data.dropWhile Char.isWhitespace).reverse.dropWhile Char.isWhitespace).reverse⟩

/-- Python `c in s` for a single character. -/
def pyContainsChar (s : String) (c : Char) : Bool := s.data.contains c

/-- Python `len(s)` (in code points). -/
def pyLen (s : String) : Nat := s.data.length

/-- Python `sep.join(l)`. -/
def pyJoin (sep : String) : List String → String
  | [] => ""
  | [x] => x
  | x :: y :: rest => x ++ sep ++ pyJoin sep (y :: rest)

/-- Numeric value of a digit string (the string is assumed all digits). -/
def digitsToNat (s : String) : Nat :=
  s.data.foldl (fun a c => a * 10 + (c.toNat - 48)) 0

/-- True when `s` is nonempty and all characters are decimal digits. -/
def isDigits (s : String) : Bool :=
  !s.data.isEmpty && s.data.all Char.isDigit

/-- Model of Python `int(s)`: strip whitespace, optional sign, digits;
anything else raises `ValueError` (modelled as `none`). -/
def pyInt (s : String) : Option Int :=
  let t := pyTrim s
  if pyStartsWith t "+" then
    if isDigits (pyDrop t 1) then some ((digitsToNat (pyDrop t 1) : Nat) : Int) else none
  else if pyStartsWith t "-" then
    if isDigits (pyDrop t 1) then some (-((digitsToNat (pyDrop t 1) : Nat) : Int)) else none
  else
    if isDigits t then some ((digitsToNat t : Nat) : Int) else none

/-- Python `int(s)` as an exception-raising computation. -/
def intExc (s : String) : Except PyExc Int :=
  match pyInt s with
  | some n => Except.ok n
  | none => Except.error PyExc.valueError

/-- Model of `try: ... except OSError: <handler>`: only `OSError` is
caught; every other exception propagates. -/
def catchOS {α : Type} (x : Except PyExc α) (handler : Except PyExc α) : Except PyExc α :=
  match x with
  | Except.error PyExc.osError => handler
  | other => other

/-- Python slicing `s[1:-1]` (total, returns `""` on short strings). -/
def pySlice1m1 (s : String) : String :=
  pyDropRight (pyDrop s 1) 1

/-- Python list indexing `l[i]`, raising `IndexError` when out of range. -/
def listGetExc {α : Type} (l : List α) (i : Nat) : Except PyExc α :=
  match l.get? i with
  | some a => Except.ok a
  | none => Except.error PyExc.indexError

/-- The connectivity fields of `SIM800.__init__` (all start as `None`). -/
structure Session where
  ip_status : Option String
  reg_status : Option Int
  network : Option String
  gprs_status : Option Int
  ip_address : Option String
deriving DecidableEq, Repr

/-- Fresh session state: every field is Python `None`. -/
def Session.init : Session :=
  ⟨none, none, none, none, none⟩

/-- The concrete `ATCommand` subclasses of `commands.py`. -/
inductive Cmd
  | AT
  | ATE0
  | CSQ
  | CREG
  | CGATT
  | CSTT
  | CIPSHUT
  | CIPSTATUS
  | CIPMUX
  | CIICR
  | CPIN
  | COPS
  | CIFSR
deriving DecidableEq, Repr

/-- Class name of each command (the registry key used by `__init__.py`). -/
def cmdName : Cmd → String
  | Cmd.AT => "AT"
  | Cmd.ATE0 => "ATE0"
  | Cmd.CSQ => "CSQ"
  | Cmd.CREG => "CREG"
  | Cmd.CGATT => "CGATT"
  | Cmd.CSTT => "CSTT"
  | Cmd.CIPSHUT => "CIPSHUT"
  | Cmd.CIPSTATUS => "CIPSTATUS"
  | Cmd.CIPMUX => "CIPMUX"
  | Cmd.CIICR => "CIICR"
  | Cmd.CPIN => "CPIN"
  | Cmd.COPS => "COPS"
  | Cmd.CIFSR => "CIFSR"

/-- `ATCommand.__init__`: `command if command[:2] == 'AT' else 'AT+%s' % command`. -/
def commandText (c : Cmd) : String :=
  let n := cmdName c
  if pyTake n 2 = "AT" then n else "AT+" ++ n

/-- `ATCommand.__init__`: keyword defaults to `'+%s:' % command`;
`AT` passes `keyword='OK'`, `CIPSHUT` passes `'SHUT'`, `CIPSTATUS` passes `'STATE:'`. -/
def cmdKeyword : Cmd → String
  | Cmd.AT => "OK"
  | Cmd.CIPSHUT => "SHUT"
  | Cmd.CIPSTATUS => "STATE:"
  | c => "+" ++ cmdName c ++ ":"

/-- `ATCommand.__init__`: `expected` flag (`ATE0`, `CSTT`, `CIPMUX`, `CIICR`
pass `expected=False`). -/
def cmdExpected : Cmd → Bool
  | Cmd.ATE0 => false
  | Cmd.CSTT => false
  | Cmd.CIPMUX => false
  | Cmd.CIICR => false
  | _ => true

/-- The registry keys of `SIM800.COMMANDS` after `__init__.py` runs. -/
def COMMANDS : List String :=
  ["AT", "ATE0", "CSQ", "CREG", "CGATT", "CSTT", "CIPSHUT",
   "CIPSTATUS", "CIPMUX", "CIICR", "CPIN", "COPS", "CIFSR"]

/-- `SIM800.COMMANDS[name]`: look a command class up by registry key. -/
def lookupCmd (name : String) : Option Cmd :=
  if name = "AT" then some Cmd.AT
  else if name = "ATE0" then some Cmd.ATE0
  else if name = "CSQ" then some Cmd.CSQ
  else if name = "CREG" then some Cmd.CREG
  else if name = "CGATT" then some Cmd.CGATT
  else if name = "CSTT" then some Cmd.CSTT
  else if name = "CIPSHUT" then some Cmd.CIPSHUT
  else if name = "CIPSTATUS" then some Cmd.CIPSTATUS
  else if name = "CIPMUX" then some Cmd.CIPMUX
  else if name = "CIICR" then some Cmd.CIICR
  else if name = "CPIN" then some Cmd.CPIN
  else if name = "COPS" then some Cmd.COPS
  else if name = "CIFSR" then some Cmd.CIFSR
  else none

/-- Python values returned by the various `process` methods. -/
inductive PyVal
  | pynone
  | pybool (b : Bool)
  | pyint (n : Int)
  | pystr (s : String)
  | pair (n : Int) (s : String)
deriving DecidableEq, Repr

/-- `ATCommand.process` (base class): `return line`. -/
def ATCommand.process (st : Session) (line : String) : Except PyExc (Session × PyVal) :=
  Except.ok (st, PyVal.pystr line)

/-- `AT.process`: `return line == 'OK'`. -/
def ATcls.process (st : Session) (line : String) : Except PyExc (Session × PyVal) :=
  Except.ok (st, PyVal.pybool (line = "OK"))

/-- `CSQ.process`: parse the RSSI code after `'+CSQ: '` (the `try` catches
only `OSError`), then map through the fixed table. -/
def CSQ.process (st : Session) (line : String) : Except PyExc (Session × PyVal) :=
  let rssiE : Except PyExc Int :=
    if pyStartsWith line "+CSQ: " then
      catchOS (intExc ((pySplit (pyDrop line 6) ',').headD "")) (Except.ok 99)
    else
      Except.ok 99
  match rssiE with
  | Except.error e => Except.error e
  | Except.ok rssi =>
    let v :=
      if rssi = 0 then PyVal.pair rssi "<= -115 dBm"
      else if rssi = 1 then PyVal.pair rssi "-111 dBm"
      else if rssi > 1 && rssi < 31 then PyVal.pair rssi (toString (2 * rssi - 114) ++ " dBm")
      else if rssi = 31 then PyVal.pair rssi ">= -52 dBm"
      else PyVal.pair rssi "Unknown"
    Except.ok (st, v)

/-- The `CREG.STAT` dictionary; lookup raises `KeyError` outside 0–5. -/
def cregStatExc (n : Int) : Except PyExc String :=
  if n = 0 then Except.ok "Not searching for network"
  else if n = 1 then Except.ok "Registered, home network"
  else if n = 2 then Except.ok "Searching for network"
  else if n = 3 then Except.ok "Registration denied"
  else if n = 4 then Except.ok "Unknown"
  else if n = 5 then Except.ok "Registered, roaming"
  else Except.error PyExc.keyError

/-- `CREG.process`: split `line[7:]` on commas, take field 1 when 2 or 4
fields are present and field 0 otherwise (the `try` catches only `OSError`),
clamp out-of-range to 4, store `reg_status`, return `(status, STAT[status])`. -/
def CREG.process (st : Session) (line : String) : Except PyExc (Session × PyVal) :=
  let fields := pySplit (pyDrop line 7) ','
  let statusE : Except PyExc Int :=
    catchOS
      (if fields.length = 2 || fields.length = 4 then intExc (fields.getD 1 "")
       else intExc (fields.headD ""))
      (Except.ok 4)
  match statusE with
  | Except.error e => Except.error e
  | Except.ok s0 =>
    let status := if s0 < 0 || s0 > 5 then 4 else s0
    let st := { st with reg_status := some status }
    match cregStatExc status with
    | Except.error e => Except.error e
    | Except.ok lbl => Except.ok (st, PyVal.pair status lbl)

/-- The `CGATT.STAT` dictionary; lookup raises `KeyError` outside {-1,0,1}. -/
def cgattStatExc (n : Int) : Except PyExc String :=
  if n = -1 then Except.ok "Unknown"
  else if n = 0 then Except.ok "Detached"
  else if n = 1 then Except.ok "Attached"
  else Except.error PyExc.keyError

/-- `CGATT.process`: `int(line[8:])` (the `try` catches only `OSError`),
store `gprs_status`, return `(status, STAT[status])`. -/
def CGATT.process (st : Session) (line : String) : Except PyExc (Session × PyVal) :=
  let statusE : Except PyExc Int := catchOS (intExc (pyDrop line 8)) (Except.ok (-1))
  match statusE with
  | Except.error e => Except.error e
  | Except.ok status =>
    let st := { st with gprs_status := some status }
    match cgattStatExc status with
    | Except.error e => Except.error e
    | Except.ok lbl => Except.ok (st, PyVal.pair status lbl)

/-- `CIPSHUT.process`: `True` when the stripped line is `'SHUT OK'`, else `None`. -/
def CIPSHUT.process (st : Session) (line : String) : Except PyExc (Session × PyVal) :=
  Except.ok (st, if pyTrim line = "SHUT OK" then PyVal.pybool true else PyVal.pynone)

/-- `CIPSTATUS.process`: `status = line[7:]`, store `ip_status`, return it. -/
def CIPSTATUS.process (st : Session) (line : String) : Except PyExc (Session × PyVal) :=
  let status := pyDrop line 7
  Except.ok ({ st with ip_status := some status }, PyVal.pystr status)

/-- `CPIN.process`: `True` on `'+CPIN: READY'`, else `None`. -/
def CPIN.process (st : Session) (line : String) : Except PyExc (Session × PyVal) :=
  Except.ok (st, if line = "+CPIN: READY" then PyVal.pybool true else PyVal.pynone)

/-- `COPS.process`: `line.split(',')[2][1:-1]` (can raise `IndexError`),
store `network`, return it. -/
def COPS.process (st : Session) (line : String) : Except PyExc (Session × PyVal) :=
  match listGetExc (pySplit line ',') 2 with
  | Except.error e => Except.error e
  | Except.ok f =>
    let v := pySlice1m1 f
    Except.ok ({ st with network := some v }, PyVal.pystr v)

/-- `CIFSR.process`: store the whole line as `ip_address` and return it. -/
def CIFSR.process (st : Session) (line : String) : Except PyExc (Session × PyVal) :=
  Except.ok ({ st with ip_address := some line }, PyVal.pystr line)

/-- Dispatch `process` through the class of the command object
(`ATE0`, `CSTT`, `CIPMUX`, `CIICR` inherit the base implementation). -/
def cmdProcess : Cmd → Session → String → Except PyExc (Session × PyVal)
  | Cmd.AT => ATcls.process
  | Cmd.ATE0 => ATCommand.process
  | Cmd.CSQ => CSQ.process
  | Cmd.CREG => CREG.process
  | Cmd.CGATT => CGATT.process
  | Cmd.CSTT => ATCommand.process
  | Cmd.CIPSHUT => CIPSHUT.process
  | Cmd.CIPSTATUS => CIPSTATUS.process
  | Cmd.CIPMUX => ATCommand.process
  | Cmd.CIICR => ATCommand.process
  | Cmd.CPIN => CPIN.process
  | Cmd.COPS => COPS.process
  | Cmd.CIFSR => CIFSR.process

/-- A pending-queue entry `(keyword, command object, completion lock)`;
`sid` identifies the completion lock (signal). -/
structure Entry where
  kw : String
  cmd : Cmd
  sid : Nat
deriving DecidableEq, Repr

/-- The dispatcher state relevant to line processing: the session fields
and the `_pending` queue. -/
structure ModState where
  session : Session
  pending : List Entry
deriving DecidableEq, Repr

/-- Outcome of `SIM800.process`: a solicited completion (returns
`(name, 'expected', result)` and releases the signal `sid`), an
unsolicited decode (returns `(name, 'unsolicited', result)`), or the
unhandled fall-through (returns `None`). -/
inductive Outcome
  | expectedHit (name : String) (v : PyVal) (sid : Nat)
  | unsolicited (name : String) (v : PyVal)
  | unhandled
deriving DecidableEq, Repr

/-- The loop body of `SIM800.process`: walk `_pending` from the front and
complete the first entry whose keyword equals `command` (decode, delete,
release its lock). `none` when no entry matches. -/
def scanPending (sess : Session) (command line : String) :
    List Entry → Option (Except PyExc (Session × List Entry × Cmd × PyVal × Nat))
  | [] => none
  | e :: rest =>
    if e.kw = command then
      some (match cmdProcess e.cmd sess line with
            | Except.ok (sess2, v) => Except.ok (sess2, rest, e.cmd, v, e.sid)
            | Except.error ex => Except.error ex)
    else
      (scanPending sess command line rest).map
        (Except.map (fun r => (r.1, e :: r.2.1, r.2.2)))

/-- `SIM800.process(command, line)`: solicited branch when some pending
entry's keyword equals `command`; otherwise unsolicited dispatch through
the registry via `command[1:-1]`; otherwise log-and-return-`None`. -/
def SIM800.process (st : ModState) (command line : String) :
    Except PyExc (ModState × Outcome) :=
  match scanPending st.session command line st.pending with
  | some (Except.ok (sess2, pending2, c, v, sid)) =>
    Except.ok (⟨sess2, pending2⟩, Outcome.expectedHit (cmdName c) v sid)
  | some (Except.error ex) => Except.error ex
  | none =>
    match lookupCmd (pySlice1m1 command) with
    | some c =>
      match cmdProcess c st.session line with
      | Except.ok (sess2, v) =>
        Except.ok ({ st with session := sess2 }, Outcome.unsolicited (cmdName c) v)
      | Except.error ex => Except.error ex
    | none => Except.ok (st, Outcome.unhandled)

/-- How one iteration of `SIM800._reader` classifies a stripped line. -/
inductive LineClass
  | mainProto (kw : String)
  | fallbackProto
  | noise
  | unhandledLine
  | skipped
deriving DecidableEq, Repr

/-- The branch structure of `SIM800._reader` on one stripped line:
(a) nonempty and (has a space or is `OK`): protocol line when the first
token is a pending keyword or names a registered command, else noise or
unhandled; (b) else the `'+CIFSR:'`-pending fallback when splitting on
`'.'` gives exactly four fields; (c) else silently skipped. -/
def classifyLine (pending : List Entry) (line : String) : LineClass :=
  if pyLen line > 0 && (pyContainsChar line ' ' || line = "OK") then
    let line0 := (pySplit line ' ').headD ""
    if pending.any (fun p => p.kw = line0) || COMMANDS.contains (pySlice1m1 line0) then
      LineClass.mainProto line0
    else if !(["OK", "ERROR", "Call Ready", "SMS Ready"].contains line) then
      LineClass.unhandledLine
    else
      LineClass.noise
  else if pending.any (fun p => p.kw = "+CIFSR:") && (pySplit line '.').length = 4 then
    LineClass.fallbackProto
  else
    LineClass.skipped

/-- What one reader-loop iteration did with the line. -/
inductive RAct
  | processed (out : Outcome)
  | noise
  | unhandledLine
  | skipped
deriving DecidableEq, Repr

/-- One iteration of `SIM800._reader` on a stripped line: classify, then
run `SIM800.process` on protocol lines (the fallback passes the literal
keyword `'+CIFSR:'`). -/
def SIM800.readerStep (st : ModState) (line : String) :
    Except PyExc (ModState × RAct) :=
  match classifyLine st.pending line with
  | LineClass.mainProto kw =>
    (SIM800.process st kw line).map (fun r => (r.1, RAct.processed r.2))
  | LineClass.fallbackProto =>
    (SIM800.process st "+CIFSR:" line).map (fun r => (r.1, RAct.processed r.2))
  | LineClass.noise => Except.ok (st, RAct.noise)
  | LineClass.unhandledLine => Except.ok (st, RAct.unhandledLine)
  | LineClass.skipped => Except.ok (st, RAct.skipped)

/-- The `params` argument of `ATCommand.__call__`: `None`, an integer, a
string, or an iterable of strings. -/
inductive Params
  | pnone
  | pint (n : Int)
  | pstr (s : String)
  | plist (l : List String)
deriving DecidableEq, Repr

/-- `ATCommand.__call__` wire text: append `=<n>` for an integer, a bare
`?` for the query marker, `="<s>"` for another string, `="a","b",...` for
an iterable; then CRLF; then, when `data` is truthy (given and nonempty),
the body and one 0x1A byte. -/
def ATCommand.call (c : Cmd) (p : Params) (data : Option String) : String :=
  let output := commandText c
  let output :=
    match p with
    | Params.pnone => output
    | Params.pint n => output ++ "=" ++ toString n
    | Params.pstr s => if s = "?" then output ++ "?" else output ++ "=\"" ++ s ++ "\""
    | Params.plist l => output ++ "=\"" ++ pyJoin "\",\"" l ++ "\""
  let output := output ++ "\r\n"
  match data with
  | some d => if d = "" then output else output ++ d ++ "\x1a"
  | none => output

/-- What `SIM800.AT` returns to its caller: `return return_lock and
pending_lock` (so `None`, `False`, or the pending entry's lock), or the
implicit `None` of the unknown-command fall-through. -/
inductive RetVal
  | rnone
  | rfalse
  | rlock (sid : Nat)
deriving DecidableEq, Repr

/-- `SIM800.AT(command, params=..., data=..., return_lock=...)`: strip a
trailing `?` into `params='?'` (`command[-1]` raises `IndexError` on the
empty name), look the name up in `SIM800.COMMANDS` (silently returning
`None` when absent, with no write and no enqueue); otherwise build and
write the wire text and enqueue a pending entry when a reply is expected.
`nextSid` identifies the freshly created lock; the returned list holds
the strings written to the serial port. -/
def SIM800.AT (st : ModState) (nextSid : Nat) (command : String) (p : Params)
    (data : Option String) (return_lock : Bool) :
    Except PyExc (ModState × List String × RetVal) :=
  if command = "" then Except.error PyExc.indexError
  else
    let cp : String × Params :=
      if pyEndsWith command "?" then (pyDropRight command 1, Params.pstr "?") else (command, p)
    match lookupCmd cp.1 with
    | none => Except.ok (st, [], RetVal.rnone)
    | some c =>
      let wire := ATCommand.call c cp.2 data
      if cmdExpected c then
        Except.ok
          ({ st with pending := st.pending ++ [⟨cmdKeyword c, c, nextSid⟩] },
           [wire],
           if return_lock then RetVal.rlock nextSid else RetVal.rfalse)
      else
        Except.ok (st, [wire], if return_lock then RetVal.rnone else RetVal.rfalse)

/-- The `ip_status` property getter: `return self._ip_status`. -/
def Session.get_ip_status (s : Session) : Option String := s.ip_status

/-- The `reg_status` property getter: `return self._reg_status`. -/
def Session.get_reg_status (s : Session) : Option Int := s.reg_status

/-- The `network` property getter: `return self._network`. -/
def Session.get_network (s : Session) : Option String := s.network

/-- The `gprs_status` property getter: `return self._gprs_status`. -/
def Session.get_gprs_status (s : Session) : Option Int := s.gprs_status

/-- The `ip_address` property setter: `self._ip_address = value`. -/
def Session.set_ip_address (s : Session) (v : String) : Session :=
  { s with ip_address := some v }

/-- The `ip_address` property getter, with a recursion-depth budget: the
body is `return self.ip_address`, which re-invokes the property itself,
so the result is the getter at one less budget; an exhausted budget is
Python's `RecursionError`, modelled as `none` (no value produced). -/
def ipAddressGet : Nat → Session → Option (Option String)
  | 0, _ => none
  | n + 1, s => ipAddressGet n s

/-- The documented RSSI table: 0 → weakest, 1 → fixed dBm value,
2–30 → `2*code − 114` dBm, 31 → strongest, anything else → "Unknown". -/
def csqLabel (n : Int) : String :=
  if n = 0 then "<= -115 dBm"
  else if n = 1 then "-111 dBm"
  else if n > 1 && n < 31 then toString (2 * n - 114) ++ " dBm"
  else if n = 31 then ">= -52 dBm"
  else "Unknown"

/-- When no pending entry's keyword equals `command`, the scan of
`SIM800.process` finds nothing. -/
theorem scanPending_eq_none (sess : Session) (command line : String) (l : List Entry)
    (h : ∀ e ∈ l, e.kw ≠ command) : scanPending sess command line l = none := by
  induction l with
  | nil => rfl
  | cons e rest ih =>
    have hk : ¬ e.kw = command := h e (List.mem_cons_self e rest)
    simp only [scanPending, if_neg hk,
      ih (fun x hx => h x (List.mem_cons_of_mem e hx)), Option.map_none']

/-- The scan of `SIM800.process` completes the first entry whose keyword
equals `command`, wherever it sits in the queue. -/
theorem scanPending_first (sess : Session) (command line : String) (e : Entry)
    (post : List Entry) (sess2 : Session) (v : PyVal)
    (he : e.kw = command) (hp : cmdProcess e.cmd sess line = Except.ok (sess2, v))
    (pre : List Entry) (hpre : ∀ x ∈ pre, x.kw ≠ command) :
    scanPending sess command line (pre ++ e :: post)
      = some (Except.ok (sess2, pre ++ post, e.cmd, v, e.sid)) := by
  induction pre with
  | nil =>
    simp only [List.nil_append, scanPending, if_pos he, hp]
  | cons a rest ih =>
    have hk : ¬ a.kw = command := hpre a (List.mem_cons_self a rest)
    simp only [List.cons_append, scanPending, if_neg hk, List.append_eq,
      ih (fun x hx => hpre x (List.mem_cons_of_mem a hx)), Option.map_some', Except.map]

/-- C1 (counterexample): with pending queue head `('+CSQ:', CSQ)` and a
second entry `('+CREG:', CREG)`, the line `'+CREG: 1,1'` completes the
NON-head entry: it is popped, decoded, and its signal (sid 1) released,
while the head stays queued — refuting the claim that a line whose
keyword matches only a non-head entry completes no entry. -/
theorem C1_counterexample :
    SIM800.process ⟨Session.init, [⟨"+CSQ:", Cmd.CSQ, 0⟩, ⟨"+CREG:", Cmd.CREG, 1⟩]⟩
        "+CREG:" "+CREG: 1,1"
      = Except.ok
          (⟨{ Session.init with reg_status := some 1 }, [⟨"+CSQ:", Cmd.CSQ, 0⟩]⟩,
           Outcome.expectedHit "CREG" (PyVal.pair 1 "Registered, home network") 1) := by
  rfl

/-- C1 (amended): `SIM800.process` scans the pending queue from the front
and completes exactly the first entry whose keyword equals the line's
keyword — whether or not it is the head; among entries sharing a keyword
only queue position decides which completes. -/
theorem C1_first_match_completes (sess : Session) (command line : String)
    (pre post : List Entry) (e : Entry) (sess2 : Session) (v : PyVal)
    (hpre : ∀ x ∈ pre, x.kw ≠ command) (he : e.kw = command)
    (hproc : cmdProcess e.cmd sess line = Except.ok (sess2, v)) :
    SIM800.process ⟨sess, pre ++ e :: post⟩ command line
      = Except.ok (⟨sess2, pre ++ post⟩, Outcome.expectedHit (cmdName e.cmd) v e.sid) := by
  simp only [SIM800.process,
    scanPending_first sess command line e post sess2 v he hproc pre hpre]

/-- C1 witness: the amended theorem at a concrete queue — a non-matching
head `('OK', AT)` followed by `('+CSQ:', CSQ)`; the line `'+CSQ: 20'`
completes the second entry. -/
theorem C1_witness :
    SIM800.process ⟨Session.init, [⟨"OK", Cmd.AT, 0⟩, ⟨"+CSQ:", Cmd.CSQ, 1⟩]⟩
        "+CSQ:" "+CSQ: 20"
      = Except.ok
          (⟨Session.init, [⟨"OK", Cmd.AT, 0⟩]⟩,
           Outcome.expectedHit "CSQ" (PyVal.pair 20 "-74 dBm") 1) :=
  C1_first_match_completes Session.init "+CSQ:" "+CSQ: 20"
    [⟨"OK", Cmd.AT, 0⟩] [] ⟨"+CSQ:", Cmd.CSQ, 1⟩ Session.init
    (PyVal.pair 20 "-74 dBm") (by decide) rfl rfl

/-- C2: decode is NOT total — `int()` raises `ValueError` which the
`except OSError:` handler cannot catch, so `CGATT.process` on a
non-numeric trailer raises instead of returning the −1 fallback, and
`COPS.process` on a line with fewer than three comma fields raises
`IndexError`; either exception propagates into the reader loop. -/
theorem C2_decode_raises :
    CGATT.process Session.init "+CGATT: x" = Except.error PyExc.valueError ∧
    COPS.process Session.init "OK" = Except.error PyExc.indexError :=
  ⟨rfl, rfl⟩

/-- C3 (counterexample): decode of `'+CSQ: 32'` returns `(32, "Unknown")`,
not `(99, "Unknown")` as claimed, and decode of `'+CSQ: x'` raises
`ValueError` instead of returning a value. -/
theorem C3_counterexample :
    CSQ.process Session.init "+CSQ: 32" = Except.ok (Session.init, PyVal.pair 32 "Unknown") ∧
    CSQ.process Session.init "+CSQ: x" = Except.error PyExc.valueError :=
  ⟨rfl, rfl⟩

/-- C3 (amended): for every line whose first comma field after the
`'+CSQ: '` prefix parses as the integer `n`, decode returns `(n, label)`
with the documented table label (so the documented pairs for 0..31, and
`(n, "Unknown")` — keeping the parsed code — for any other integer);
a line without the prefix returns `(99, "Unknown")`; a prefixed line
whose first field does not parse raises `ValueError`. -/
theorem C3_csq_decode (sess : Session) (line : String) (n : Int) :
    (pyStartsWith line "+CSQ: " = true →
      pyInt ((pySplit (pyDrop line 6) ',').headD "") = some n →
      CSQ.process sess line = Except.ok (sess, PyVal.pair n (csqLabel n))) ∧
    (pyStartsWith line "+CSQ: " = false →
      CSQ.process sess line = Except.ok (sess, PyVal.pair 99 "Unknown")) ∧
    (pyStartsWith line "+CSQ: " = true →
      pyInt ((pySplit (pyDrop line 6) ',').headD "") = none →
      CSQ.process sess line = Except.error PyExc.valueError) := by
  refine ⟨?_, ?_, ?_⟩
  · intro h1 h2
    simp only [CSQ.process, h1, if_true, intExc, h2, catchOS, csqLabel]
    split_ifs <;> rfl
  · intro h1
    simp only [CSQ.process, h1, Bool.false_eq_true, if_false]
    rfl
  · intro h1 h2
    simp only [CSQ.process, h1, if_true, intExc, h2, catchOS]

/-- C3 witness: the amended theorem at code 7 (documented pair), at an
unprefixed line, and at a non-numeric fragment. -/
theorem C3_witness :
    CSQ.process Session.init "+CSQ: 7" = Except.ok (Session.init, PyVal.pair 7 (csqLabel 7)) ∧
    CSQ.process Session.init "garbage" = Except.ok (Session.init, PyVal.pair 99 "Unknown") ∧
    CSQ.process Session.init "+CSQ: zz" = Except.error PyExc.valueError :=
  ⟨(C3_csq_decode Session.init "+CSQ: 7" 7).1 rfl rfl,
   (C3_csq_decode Session.init "garbage" 7).2.1 rfl,
   (C3_csq_decode Session.init "+CSQ: zz" 7).2.2 rfl rfl⟩

/-- C4: a registration reply whose status field is unparsable is NOT
normalized to 4 — `int('x')` raises `ValueError`, the `except OSError:`
handler (which would set 4) cannot catch it, and `reg_status` is never
written because the exception aborts `CREG.process`. -/
theorem C4_creg_unparsable_raises (sess : Session) :
    CREG.process sess "+CREG: x" = Except.error PyExc.valueError :=
  rfl

/-- C5: the encoder produces exactly the documented wire text for each
parameter shape — bare command, `=<n>`, literal `?`, `="<s>"`,
`="a","b",...` — terminated by CRLF, and a nonempty data body is appended
after the CRLF followed by exactly one 0x1A byte; as a function of its
arguments the encoding is deterministic. -/
theorem C5_encode_wire_format (c : Cmd) (n : Int) (s : String) (l : List String)
    (p : Params) (d : String) :
    ATCommand.call c Params.pnone none = commandText c ++ "\r\n" ∧
    ATCommand.call c (Params.pint n) none = commandText c ++ "=" ++ toString n ++ "\r\n" ∧
    ATCommand.call c (Params.pstr "?") none = commandText c ++ "?" ++ "\r\n" ∧
    (s ≠ "?" → ATCommand.call c (Params.pstr s) none
        = commandText c ++ "=\"" ++ s ++ "\"" ++ "\r\n") ∧
    ATCommand.call c (Params.plist l) none
        = commandText c ++ "=\"" ++ pyJoin "\",\"" l ++ "\"" ++ "\r\n" ∧
    (d ≠ "" → ATCommand.call c p (some d) = ATCommand.call c p none ++ d ++ "\x1a") := by
  refine ⟨rfl, rfl, rfl, ?_, rfl, ?_⟩
  · intro h
    simp only [ATCommand.call, if_neg h]
  · intro h
    cases p <;> simp only [ATCommand.call, if_neg h]

/-- C5 witness: the string shape at `s = "h2g2"` and the data-body shape
at `d = "hello"`. -/
theorem C5_witness :
    ATCommand.call Cmd.CSTT (Params.pstr "h2g2") none
        = commandText Cmd.CSTT ++ "=\"" ++ "h2g2" ++ "\"" ++ "\r\n" ∧
    ATCommand.call Cmd.AT Params.pnone (some "hello")
        = ATCommand.call Cmd.AT Params.pnone none ++ "hello" ++ "\x1a" :=
  ⟨(C5_encode_wire_format Cmd.CSTT 0 "h2g2" [] Params.pnone "x").2.2.2.1 (by decide),
   (C5_encode_wire_format Cmd.AT 0 "x" [] Params.pnone "hello").2.2.2.2.2 (by decide)⟩

/-- C6 (counterexample): the call with the unregistered name `'BOGUS'`
returns plain `None` — the very value a successful `return_lock=True`
call of the registered no-reply command `CIICR` also returns — so the
failure is not reported as a distinguishable Unknown-Command result. -/
theorem C6_counterexample :
    SIM800.AT ⟨Session.init, []⟩ 0 "BOGUS" Params.pnone none true
        = Except.ok (⟨Session.init, []⟩, [], RetVal.rnone) ∧
    SIM800.AT ⟨Session.init, []⟩ 0 "CIICR" Params.pnone none true
        = Except.ok (⟨Session.init, []⟩, ["AT+CIICR\r\n"], RetVal.rnone) :=
  ⟨rfl, rfl⟩

/-- C6 (amended): for every call with a nonempty name whose (possibly
`?`-stripped) form is unregistered, `SIM800.AT` writes nothing, leaves
the state and pending queue unchanged, and falls through returning plain
`None` (not a distinct Unknown-Command report). -/
theorem C6_unknown_command (st : ModState) (sid : Nat) (command : String)
    (p : Params) (d : Option String) (rl : Bool)
    (h0 : command ≠ "")
    (h1 : lookupCmd (if pyEndsWith command "?" then pyDropRight command 1 else command)
        = none) :
    SIM800.AT st sid command p d rl = Except.ok (st, [], RetVal.rnone) := by
  cases hq : pyEndsWith command "?" <;>
    simp only [hq, Bool.false_eq_true, if_false, if_true] at h1 <;>
    simp only [SIM800.AT, if_neg h0, hq, Bool.false_eq_true, if_false, if_true, h1]

/-- C6 witness: the amended theorem at the concrete unregistered name
`'BOGUS'` with `return_lock=False`. -/
theorem C6_witness :
    SIM800.AT ⟨Session.init, []⟩ 0 "BOGUS" Params.pnone none false
        = Except.ok (⟨Session.init, []⟩, [], RetVal.rnone) :=
  C6_unknown_command ⟨Session.init, []⟩ 0 "BOGUS" Params.pnone none false
    (by decide) rfl

/-- C7: a line whose keyword (stripped of leading `+` and trailing `:`)
names a registered command and matches no pending entry is decoded on a
fresh descriptor: the session side effects of that decode apply, the
pending queue is unchanged, and the outcome is `unsolicited` (which
releases no completion signal). -/
theorem C7_unsolicited_dispatch (st : ModState) (command line : String) (c : Cmd)
    (sess2 : Session) (v : PyVal)
    (hnp : ∀ p ∈ st.pending, p.kw ≠ command)
    (hreg : lookupCmd (pySlice1m1 command) = some c)
    (hproc : cmdProcess c st.session line = Except.ok (sess2, v)) :
    SIM800.process st command line
      = Except.ok (⟨sess2, st.pending⟩, Outcome.unsolicited (cmdName c) v) := by
  simp only [SIM800.process,
    scanPending_eq_none st.session command line st.pending hnp, hreg, hproc]

/-- C7 witness: an unprompted `'+CREG: 0,5'` with only a non-matching
`('OK', AT)` entry pending updates `reg_status` to 5 and leaves the
queue untouched. -/
theorem C7_witness :
    SIM800.process ⟨Session.init, [⟨"OK", Cmd.AT, 3⟩]⟩ "+CREG:" "+CREG: 0,5"
      = Except.ok
          (⟨{ Session.init with reg_status := some 5 }, [⟨"OK", Cmd.AT, 3⟩]⟩,
           Outcome.unsolicited "CREG" (PyVal.pair 5 "Registered, roaming")) :=
  C7_unsolicited_dispatch ⟨Session.init, [⟨"OK", Cmd.AT, 3⟩]⟩ "+CREG:" "+CREG: 0,5"
    Cmd.CREG { Session.init with reg_status := some 5 }
    (PyVal.pair 5 "Registered, roaming") (by decide) rfl rfl

/-- C8: four of the five Session State accessors return the most recently
stored value, but the `ip_address` getter's body is `return
self.ip_address` — it re-invokes itself, so under any recursion budget it
produces no value at all (RecursionError), even right after the setter
stored one. -/
theorem C8_ip_address_accessor (fuel : Nat) (s : Session) (v : String) (n : Int) :
    ipAddressGet fuel (Session.set_ip_address s v) = none ∧
    Session.get_ip_status { s with ip_status := some v } = some v ∧
    Session.get_reg_status { s with reg_status := some n } = some n ∧
    Session.get_network { s with network := some v } = some v ∧
    Session.get_gprs_status { s with gprs_status := some n } = some n := by
  refine ⟨?_, rfl, rfl, rfl, rfl⟩
  induction fuel with
  | zero => rfl
  | succ k ih => exact ih

/-- C9 (counterexample): with a `'+CIFSR:'` entry pending, the spaceless
line `'a.b.c.d'` — four dot-separated fields, none of them numeric — IS
classified under the address-shaped fallback, refuting the claim that
non-numeric fields are not treated as a protocol line. -/
theorem C9_counterexample :
    classifyLine [⟨"+CIFSR:", Cmd.CIFSR, 0⟩] "a.b.c.d" = LineClass.fallbackProto ∧
    (pySplit "a.b.c.d" '.').all isDigits = false :=
  ⟨rfl, rfl⟩

/-- C9 (amended): for a line without a space and different from `'OK'`,
the reader's fallback classifies it as a protocol line iff some pending
entry awaits `'+CIFSR:'` and splitting on `'.'` yields exactly four
fields — their numericness is never checked. -/
theorem C9_fallback_iff (pending : List Entry) (line : String)
    (hsp : pyContainsChar line ' ' = false) (hok : line ≠ "OK") :
    classifyLine pending line = LineClass.fallbackProto ↔
      (pending.any (fun p => p.kw = "+CIFSR:") = true ∧ (pySplit line '.').length = 4) := by
  have hmain : (pyLen line > 0 && (pyContainsChar line ' ' || line = "OK")) = false := by
    simp [hsp, hok]
  by_cases hfb : (pending.any (fun p => p.kw = "+CIFSR:") && (pySplit line '.').length = 4) = true
  · simp only [classifyLine, hmain, Bool.false_eq_true, if_false, hfb, if_true]
    simpa using hfb
  · simp only [classifyLine, hmain, Bool.false_eq_true, if_false, hfb]
    constructor
    · intro h
      cases h
    · intro h
      exact absurd (by simp [h.1, h.2]) hfb

/-- C9 witness: the amended theorem at the numeric line `'10.1.2.3'`
with a `'+CIFSR:'` entry pending. -/
theorem C9_witness :
    classifyLine [⟨"+CIFSR:", Cmd.CIFSR, 0⟩] "10.1.2.3" = LineClass.fallbackProto :=
  (C9_fallback_iff [⟨"+CIFSR:", Cmd.CIFSR, 0⟩] "10.1.2.3" rfl (by decide)).mpr
    ⟨rfl, rfl⟩

/-- C10: a name ending in `?` is stripped before registry lookup and the
query parameter shape is forced, so the call behaves exactly like the
call on the stripped name with `params='?'`; concretely,
`execute('CSQ?')` writes `'AT+CSQ?\r\n'` and equals
`execute('CSQ', params='?')`. -/
theorem C10_query_strip (st : ModState) (sid : Nat) (name : String) (p : Params)
    (d : Option String) (rl : Bool)
    (h0 : name ≠ "") (h1 : pyEndsWith name "?" = true)
    (h2 : pyEndsWith (pyDropRight name 1) "?" = false) (h3 : pyDropRight name 1 ≠ "") :
    SIM800.AT st sid name p d rl
        = SIM800.AT st sid (pyDropRight name 1) (Params.pstr "?") d rl ∧
    SIM800.AT ⟨Session.init, []⟩ 0 "CSQ?" Params.pnone none false
        = Except.ok (⟨Session.init, [⟨"+CSQ:", Cmd.CSQ, 0⟩]⟩, ["AT+CSQ?\r\n"], RetVal.rfalse) ∧
    SIM800.AT ⟨Session.init, []⟩ 0 "CSQ?" Params.pnone none false
        = SIM800.AT ⟨Session.init, []⟩ 0 "CSQ" (Params.pstr "?") none false := by
  refine ⟨?_, rfl, rfl⟩
  simp only [SIM800.AT, if_neg h0, if_neg h3, h1, h2, Bool.false_eq_true, if_false, if_true]

/-- C10 witness: the strip equivalence at the concrete name `'CGATT?'`. -/
theorem C10_witness :
    SIM800.AT ⟨Session.init, []⟩ 1 "CGATT?" Params.pnone none true
        = SIM800.AT ⟨Session.init, []⟩ 1 "CGATT" (Params.pstr "?") none true :=
  (C10_query_strip ⟨Session.init, []⟩ 1 "CGATT?" Params.pnone none true
    (by decide) rfl rfl (by decide)).1
